import Mathlib

/-!
Verification of the metrics derivation engine of the lathe-monitoring
backend (`fastapi_backend.py`) against its specification.

The embedding models Mongo documents as Lean structures: a field that may be
absent from a document becomes an `Option`; a numeric slot that may hold a
Python value of any type becomes `Option PyVal`.  Numbers are embedded as `ℚ`
(Python ints/floats, no overflow concerns at these magnitudes), timestamps as
`ℚ` seconds since an arbitrary epoch (so `(EndTime - StartTime).total_seconds()`
is plain subtraction).  The per-call `random.uniform(0.05, 0.15)` damping
factor of `calculate_uptime` is passed in as an explicit argument `f`.
The storage layer is modelled by passing each endpoint the record batches the
corresponding Mongo queries would return, plus booleans for
`collection_exists`; an `HTTPException` raised by an endpoint is an
`Except.error`.
-/

/-- A Python value found in a tracked sensor field: a number (int/float,
embedded as `ℚ`), a boolean, or a string.  The source's type check
`isinstance(d[metric], (int, float))` accepts booleans, since Python's
`bool` is a subclass of `int` (with `True == 1`, `False == 0`). -/
inductive PyVal where
  | num (q : ℚ)
  | bool (b : Bool)
  | str (s : String)
deriving DecidableEq, Repr

/-- The numeric value `isinstance(v, (int, float))` admits, if any: a number
stands for itself, `True` for 1 and `False` for 0 (Python bool is an int
subclass), and a string is rejected. -/
def PyVal.asNumeric : PyVal → Option ℚ
  | .num q => some q
  | .bool b => some (if b then 1 else 0)
  | .str _ => none

/-- One document of a `LatheN.SensoryData` collection, restricted to the
fields the analytics read.  `none` in a tracked field means the key is absent
from the document. -/
structure SensorReading where
  Temperature : Option PyVal
  Vibration : Option PyVal
  RPM : Option PyVal
  Power : Option PyVal
  ToolWear : Option PyVal
  JobID : Option String
deriving DecidableEq, Repr

/-- One document of a `LatheN.JobDetails` collection, restricted to the fields
the analytics read.  `none` means the key is absent from the document. -/
structure JobRecord where
  JobID : String
  Status : String
  Material : Option String
  StartTime : Option ℚ
  EndTime : Option ℚ
  FinalToolWear : Option ℚ
deriving DecidableEq, Repr

/-- `np.mean` of a batch of rationals (arbitrary for an empty batch; every
call site guards against emptiness exactly as the source does). -/
def mean (xs : List ℚ) : ℚ := xs.sum / xs.length

/-- The extraction loop of `calculate_health_score`: the list, in document
order, of the values of one tracked field that pass the
`metric in d and isinstance(d[metric], (int, float))` test. -/
def trackedValues (field : SensorReading → Option PyVal) (batch : List SensorReading) :
    List ℚ :=
  batch.filterMap (fun r => (field r).bind PyVal.asNumeric)

/-- `scores['temp']`: `1 - (np.mean(...) - 25) / 100 if metrics['Temperature'] else 0`. -/
def score_temp (xs : List ℚ) : ℚ := if xs.isEmpty then 0 else 1 - (mean xs - 25) / 100

/-- `scores['vib']`: `1 - np.mean(...) / 10 if metrics['Vibration'] else 0`. -/
def score_vib (xs : List ℚ) : ℚ := if xs.isEmpty then 0 else 1 - mean xs / 10

/-- `scores['rpm']`: `np.mean(...) / 3000 if metrics['RPM'] else 0`. -/
def score_rpm (xs : List ℚ) : ℚ := if xs.isEmpty then 0 else mean xs / 3000

/-- `scores['power']`: `1 - np.mean(...) / 15 if metrics['Power'] else 0`. -/
def score_power (xs : List ℚ) : ℚ := if xs.isEmpty then 0 else 1 - mean xs / 15

/-- `scores['wear']`: `1 - np.mean(...) / 100 if metrics['ToolWear'] else 0`. -/
def score_wear (xs : List ℚ) : ℚ := if xs.isEmpty then 0 else 1 - mean xs / 100

/-- `calculate_health_score` (source lines 109-150).  The `try`/`except`
wrapper of the source cannot fire in this model: every operation inside it is
total (the `np.mean` calls are guarded by non-emptiness tests). -/
def calculate_health_score (lathe_data : List SensorReading) : ℚ :=
  if lathe_data.isEmpty then 0
  else
    let health :=
      0.2 * score_temp (trackedValues (fun r => r.Temperature) lathe_data)
      + 0.15 * score_vib (trackedValues (fun r => r.Vibration) lathe_data)
      + 0.25 * score_rpm (trackedValues (fun r => r.RPM) lathe_data)
      + 0.2 * score_power (trackedValues (fun r => r.Power) lathe_data)
      + 0.2 * score_wear (trackedValues (fun r => r.ToolWear) lathe_data)
    max 0 (min 100 (health * 100))

/-- The jobs a `find({"Status": "Completed"})` query returns. -/
def completedJobs (jobs : List JobRecord) : List JobRecord :=
  jobs.filter (fun j => j.Status == "Completed")

/-- `(job['EndTime'] - job['StartTime']).total_seconds()` for a job passing
the `'EndTime' in job and 'StartTime' in job` guard. -/
def jobDuration (j : JobRecord) : Option ℚ :=
  match j.StartTime, j.EndTime with
  | some s, some e => some (e - s)
  | _, _ => none

/-- `total_duration` of `calculate_uptime`: the summed durations of the
completed jobs that carry both timestamps. -/
def totalDuration (jobs : List JobRecord) : ℚ :=
  ((completedJobs jobs).filterMap jobDuration).sum

/-- `calculate_uptime` (source lines 152-179) on the job collection of one
lathe: `none` models a collection that does not exist, `f` the factor the
source draws with `random.uniform(0.05, 0.15)`.  The `except` branch
(returning 100) cannot fire in this model, where every document field is
already well typed. -/
def calculate_uptime (jobCol : Option (List JobRecord)) (f : ℚ) : ℚ :=
  match jobCol with
  | none => 100
  | some allJobs =>
    if (completedJobs allJobs).isEmpty then 100
    else
      let total := totalDuration allJobs
      let downtime := total * f
      let uptime := if 0 < total + downtime then total / (total + downtime) else 1
      max 0 (min 100 (uptime * 100))

/-- `get_lathe_status` (source lines 181-188). -/
def get_lathe_status (health_score : ℚ) : String :=
  if 80 ≤ health_score then "Operational"
  else if 60 ≤ health_score then "Warning"
  else "Failure"

/-- The Mongo predicate `{"FinalToolWear": {"$gt": t}}`: true when the field
is present and its value exceeds `t` (a document without the field never
matches). -/
def wearGT (j : JobRecord) (t : ℚ) : Bool :=
  match j.FinalToolWear with
  | some w => decide (t < w)
  | none => false

/-- `count_documents({"Status": "Completed", "FinalToolWear": {"$gt": 90}})`
(source lines 252-255 and 418-421). -/
def failure_count (jobs : List JobRecord) : ℕ :=
  (jobs.filter (fun j => j.Status == "Completed" && wearGT j 90)).length

/-- The per-field goodness model of the spec (§4.2): temperature goodness. -/
def tempGoodness (m : ℚ) : ℚ := 1 - (m - 25) / 100

/-- The per-field goodness model of the spec (§4.2): vibration goodness. -/
def vibGoodness (m : ℚ) : ℚ := 1 - m / 10

/-- The per-field goodness model of the spec (§4.2): rpm goodness. -/
def rpmGoodness (m : ℚ) : ℚ := m / 3000

/-- The per-field goodness model of the spec (§4.2): power goodness. -/
def powerGoodness (m : ℚ) : ℚ := 1 - m / 15

/-- The per-field goodness model of the spec (§4.2): tool-wear goodness. -/
def wearGoodness (m : ℚ) : ℚ := 1 - m / 100

/-- The spec's sub-score of one tracked field: the goodness of the mean of
the observed values, and exactly 0 when no value was observed. -/
def fieldSubScore (xs : List ℚ) (goodness : ℚ → ℚ) : ℚ :=
  if xs = [] then 0 else goodness (mean xs)

/-- The health scorer as the spec words it (weights 0.20/0.15/0.25/0.20/0.20
written as fractions, multiplied by 100 and clamped to [0,100]); stated
independently of `calculate_health_score` so that the two can be compared. -/
def healthScoreSpec (batch : List SensorReading) : ℚ :=
  if batch = [] then 0
  else
    max 0 (min 100 (100 *
      (1/5 * fieldSubScore (trackedValues (fun r => r.Temperature) batch) tempGoodness
      + 3/20 * fieldSubScore (trackedValues (fun r => r.Vibration) batch) vibGoodness
      + 1/4 * fieldSubScore (trackedValues (fun r => r.RPM) batch) rpmGoodness
      + 1/5 * fieldSubScore (trackedValues (fun r => r.Power) batch) powerGoodness
      + 1/5 * fieldSubScore (trackedValues (fun r => r.ToolWear) batch) wearGoodness)))

/-- A reading whose single observation has temperature 25, vibration 0,
rpm 3000, power 0 and tool wear 0: every sub-score is 1. -/
def perfectReading : SensorReading :=
  ⟨some (.num 25), some (.num 0), some (.num 3000), some (.num 0), some (.num 0), none⟩

lemma score_temp_eq_fieldSubScore (xs : List ℚ) :
    score_temp xs = fieldSubScore xs tempGoodness := by
  cases xs <;> simp [score_temp, fieldSubScore, tempGoodness]

lemma score_vib_eq_fieldSubScore (xs : List ℚ) :
    score_vib xs = fieldSubScore xs vibGoodness := by
  cases xs <;> simp [score_vib, fieldSubScore, vibGoodness]

lemma score_rpm_eq_fieldSubScore (xs : List ℚ) :
    score_rpm xs = fieldSubScore xs rpmGoodness := by
  cases xs <;> simp [score_rpm, fieldSubScore, rpmGoodness]

lemma score_power_eq_fieldSubScore (xs : List ℚ) :
    score_power xs = fieldSubScore xs powerGoodness := by
  cases xs <;> simp [score_power, fieldSubScore, powerGoodness]

lemma score_wear_eq_fieldSubScore (xs : List ℚ) :
    score_wear xs = fieldSubScore xs wearGoodness := by
  cases xs <;> simp [score_wear, fieldSubScore, wearGoodness]

/-- Claim C2: `calculate_health_score` maps the empty batch to exactly 0; on
every batch it agrees with the spec formula `healthScoreSpec` (per-field
sub-scores from the fixed goodness models, a field with no observed value
contributing exactly 0, the fixed weights 0.20/0.15/0.25/0.20/0.20, times
100, clamped to [0,100]); and a batch with field means Temperature = 25,
Vibration = 0, RPM = 3000, Power = 0, ToolWear = 0 scores exactly 100. -/
theorem calculate_health_score_postcondition :
    calculate_health_score [] = 0
    ∧ (∀ batch : List SensorReading, calculate_health_score batch = healthScoreSpec batch)
    ∧ calculate_health_score [perfectReading] = 100 := by
  refine ⟨rfl, fun batch => ?_, ?_⟩
  · cases batch with
    | nil => rfl
    | cons r rest =>
      simp only [calculate_health_score, healthScoreSpec, List.isEmpty_cons,
        Bool.false_eq_true, if_false, reduceCtorEq,
        score_temp_eq_fieldSubScore, score_vib_eq_fieldSubScore, score_rpm_eq_fieldSubScore,
        score_power_eq_fieldSubScore, score_wear_eq_fieldSubScore]
      congr 2
      ring
  · norm_num [calculate_health_score, perfectReading, score_temp, score_vib, score_rpm,
      score_power, score_wear, trackedValues, mean, PyVal.asNumeric, List.filterMap]

/-- Claim C4: the status classifier is a total function of the score mapping
`[80, ∞)` to Operational, `[60, 80)` to Warning and `(-∞, 60)` to Failure;
in particular 80 ↦ Operational, 79.9 ↦ Warning, 60 ↦ Warning and
59.9 ↦ Failure. -/
theorem get_lathe_status_thresholds :
    (∀ s : ℚ, 80 ≤ s → get_lathe_status s = "Operational")
    ∧ (∀ s : ℚ, 60 ≤ s → s < 80 → get_lathe_status s = "Warning")
    ∧ (∀ s : ℚ, s < 60 → get_lathe_status s = "Failure")
    ∧ get_lathe_status 80 = "Operational"
    ∧ get_lathe_status (799/10) = "Warning"
    ∧ get_lathe_status 60 = "Warning"
    ∧ get_lathe_status (599/10) = "Failure" := by
  refine ⟨fun s h => ?_, fun s h1 h2 => ?_, fun s h => ?_, ?_, ?_, ?_, ?_⟩
  · simp [get_lathe_status, h]
  · simp [get_lathe_status, h1, not_le.mpr h2]
  · simp [get_lathe_status, not_le.mpr h, not_le.mpr (h.trans (by norm_num : (60:ℚ) < 80))]
  all_goals norm_num [get_lathe_status]

/-- Claim C5: on every input, the health score and the uptime estimate lie in
[0, 100]. -/
theorem health_and_uptime_clamped :
    (∀ batch : List SensorReading,
      0 ≤ calculate_health_score batch ∧ calculate_health_score batch ≤ 100)
    ∧ (∀ jobCol : Option (List JobRecord), ∀ f : ℚ,
      0 ≤ calculate_uptime jobCol f ∧ calculate_uptime jobCol f ≤ 100) := by
  have clamp : ∀ x : ℚ, 0 ≤ max 0 (min 100 x) ∧ max 0 (min 100 x) ≤ 100 :=
    fun x => ⟨le_max_left 0 _, max_le (by norm_num) (min_le_left 100 x)⟩
  constructor
  · intro batch
    unfold calculate_health_score
    split
    · norm_num
    · exact clamp _
  · intro jobCol f
    unfold calculate_uptime
    match jobCol with
    | none => norm_num
    | some allJobs =>
      simp only
      split
      · norm_num
      · exact clamp _

/-- A completed job whose `EndTime` precedes its `StartTime`: its duration,
and hence the summed `total_duration`, is negative. -/
def cexJob : JobRecord := ⟨"J1", "Completed", none, some 10, some 0, none⟩

/-- Claim C3 counterexample: for a machine with one Completed job carrying
both timestamps but with `EndTime` 10 seconds before `StartTime`, the summed
duration is d = -10, so the claim's "otherwise" clause applies; the code
returns 100, while the claimed value `d / (d + d*f) * 100` clamped to
[0,100] is below 100 for every damping factor in [0.05, 0.15]. -/
theorem calculate_uptime_claim_counterexample :
    (completedJobs [cexJob]).filterMap jobDuration = [(-10 : ℚ)]
    ∧ calculate_uptime (some [cexJob]) (1/10) = 100
    ∧ (∀ g : ℚ, 1/20 ≤ g → g ≤ 3/20 →
        max 0 (min 100 ((-10 : ℚ) / ((-10) + (-10) * g) * 100)) < 100) := by
  refine ⟨?_, ?_, ?_⟩
  · norm_num [completedJobs, jobDuration, cexJob, List.filterMap]
  · norm_num [calculate_uptime, completedJobs, totalDuration, jobDuration, cexJob,
      List.filterMap]
  · intro g hg1 hg2
    have h0 : (0:ℚ) < 1 + g := by linarith
    have hne0 : ((-10:ℚ) + (-10) * g) ≠ 0 := by nlinarith
    have h1 : (1:ℚ) + g ≠ 0 := h0.ne'
    have hval : (-10:ℚ) / ((-10) + (-10) * g) * 100 = 100 / (1 + g) := by
      rw [div_mul_eq_mul_div, div_eq_div_iff hne0 h1]
      ring
    rw [hval]
    have hlt : 100 / (1 + g) < 100 := by
      rw [div_lt_iff₀ h0]; nlinarith
    have hnn : (0:ℚ) ≤ 100 / (1 + g) := by positivity
    rw [min_eq_right hlt.le, max_eq_right hnn]
    exact hlt

/-- Claim C3 (amended): `calculate_uptime` returns exactly 100 when there is
no Completed job with both timestamps present, and more generally whenever
the summed duration d is ≤ 0 (including a missing job collection); only when
d > 0 does it return `d / (d + d*f) * 100` clamped to [0,100] for a damping
factor f in [0.05, 0.15] (the one drawn for the call). -/
theorem calculate_uptime_amended (f : ℚ) (hf1 : 1/20 ≤ f) (hf2 : f ≤ 3/20)
    (allJobs : List JobRecord) :
    ((completedJobs allJobs).filterMap jobDuration = [] →
      calculate_uptime (some allJobs) f = 100)
    ∧ (totalDuration allJobs ≤ 0 → calculate_uptime (some allJobs) f = 100)
    ∧ (0 < totalDuration allJobs →
        ∃ g : ℚ, 1/20 ≤ g ∧ g ≤ 3/20 ∧
          calculate_uptime (some allJobs) f =
            max 0 (min 100 (totalDuration allJobs /
              (totalDuration allJobs + totalDuration allJobs * g) * 100)))
    ∧ calculate_uptime none f = 100 := by
  have key : totalDuration allJobs ≤ 0 → calculate_uptime (some allJobs) f = 100 := by
    intro hd
    by_cases hc : (completedJobs allJobs).isEmpty
    · simp [calculate_uptime, hc]
    · have hle : ¬ (0 < totalDuration allJobs + totalDuration allJobs * f) := by
        push_neg
        nlinarith
      simp only [calculate_uptime, hc, Bool.false_eq_true, if_false, if_neg hle]
      norm_num
  refine ⟨fun h => key ?_, key, fun hd => ⟨f, hf1, hf2, ?_⟩, rfl⟩
  · unfold totalDuration
    rw [h]
    exact le_of_eq rfl
  · have hc : ¬ (completedJobs allJobs).isEmpty = true := by
      intro hc
      rw [List.isEmpty_iff] at hc
      rw [totalDuration, hc] at hd
      simp at hd
    have hpos : 0 < totalDuration allJobs + totalDuration allJobs * f := by nlinarith
    simp only [calculate_uptime, hc, Bool.false_eq_true, if_false, if_pos hpos]

/-- Claim C3 witness: the amended theorem applied to the drawn factor 0.10
and the concrete one-job collection `[cexJob]`, the hypotheses discharged
numerically. -/
theorem calculate_uptime_amended_witness :
    (1:ℚ)/20 ≤ 1/10 ∧ (1:ℚ)/10 ≤ 3/20
    ∧ (((completedJobs [cexJob]).filterMap jobDuration = [] →
        calculate_uptime (some [cexJob]) (1/10) = 100)
      ∧ (totalDuration [cexJob] ≤ 0 → calculate_uptime (some [cexJob]) (1/10) = 100)
      ∧ (0 < totalDuration [cexJob] →
          ∃ g : ℚ, 1/20 ≤ g ∧ g ≤ 3/20 ∧
            calculate_uptime (some [cexJob]) (1/10) =
              max 0 (min 100 (totalDuration [cexJob] /
                (totalDuration [cexJob] + totalDuration [cexJob] * g) * 100)))
      ∧ calculate_uptime none (1/10) = 100) :=
  ⟨by norm_num, by norm_num,
    calculate_uptime_amended (1/10) (by norm_num) (by norm_num) [cexJob]⟩

/-- Claim C6: `failure_count` counts exactly the Completed jobs whose
`FinalToolWear` exceeds 90: it equals the two-stage count (select the
Completed jobs, then count those with wear above 90), a job with any other
status never changes it, and on the spec's example job set it is 1. -/
theorem failure_count_only_completed :
    (∀ jobs : List JobRecord,
      failure_count jobs = ((completedJobs jobs).filter (fun j => wearGT j 90)).length)
    ∧ (∀ (j : JobRecord) (rest : List JobRecord), j.Status ≠ "Completed" →
        failure_count (j :: rest) = failure_count rest)
    ∧ failure_count
        [⟨"J1", "Completed", none, none, none, some 95⟩,
         ⟨"J2", "Completed", none, none, none, some 50⟩,
         ⟨"J3", "Running", none, none, none, some 99⟩] = 1 := by
  refine ⟨fun jobs => ?_, fun j rest h => ?_, by decide⟩
  · simp [failure_count, completedJobs, List.filter_filter, Bool.and_comm]
  · simp [failure_count, List.filter_cons, h]

/-- `job.get("Material", "Unknown")` (source line 545). -/
def materialKey (j : JobRecord) : String := j.Material.getD "Unknown"

/-- `product_types[material] = product_types.get(material, 0) + 1` on a dict
modelled as an insertion-ordered association list. -/
def bumpCount : List (String × ℕ) → String → List (String × ℕ)
  | [], k => [(k, 1)]
  | (k', v) :: t, k => if k' = k then (k', v + 1) :: t else (k', v) :: bumpCount t k

/-- The `product_types` distribution loop (source lines 543-546) over a batch
of completed jobs. -/
def product_types (jobs : List JobRecord) : List (String × ℕ) :=
  jobs.foldl (fun acc j => bumpCount acc (materialKey j)) []

/-- `material_jobs`: `[job["JobID"] for job in jobs if job.get("Material") == material]`
(source line 553).  `job.get("Material")` is `None` for an unlabeled job and
never equals a string key — in particular not the key `"Unknown"`. -/
def material_job_ids (jobs : List JobRecord) (material : String) : List String :=
  (jobs.filter (fun j => j.Material == some material)).map (fun j => j.JobID)

/-- `failed_jobs`: `count_documents({"JobID": {"$in": ids},
"FinalToolWear": {"$gt": 80}})` over the whole job collection
(source lines 568-571) — note: no `Status` filter here. -/
def failed_jobs_count (allJobs : List JobRecord) (ids : List String) : ℕ :=
  (allJobs.filter (fun j => ids.contains j.JobID && wearGT j 80)).length

/-- Python's `round` to the nearest integer with ties to even, on the exact
rational value. -/
def roundHalfEven (q : ℚ) : ℤ :=
  if q - ⌊q⌋ < 1/2 then ⌊q⌋
  else if 1/2 < q - ⌊q⌋ then ⌊q⌋ + 1
  else if ⌊q⌋ % 2 = 0 then ⌊q⌋ else ⌊q⌋ + 1

/-- Python's `round(x, 1)`. -/
def round1 (q : ℚ) : ℚ := (roundHalfEven (q * 10) : ℚ) / 10

/-- The `failure_rate` expression of source lines 586-588 for one material:
`round((failed_jobs / total_jobs) * 100, 1) if total_jobs > 0 else 0`, with
`ids` the `material_jobs` id list (so `total_jobs = len(ids)`). -/
def failure_rate (allJobs : List JobRecord) (ids : List String) : ℚ :=
  if 0 < ids.length then round1 ((failed_jobs_count allJobs ids : ℚ) / ids.length * 100)
  else 0

/-- The sensor documents a `find({"JobID": job_id})` query returns. -/
def jobReadings (readings : List SensorReading) (jid : String) : List SensorReading :=
  readings.filter (fun r => r.JobID == some jid)

/-- The `health_scores` accumulation of source lines 574-582: one score per
job id whose own readings are non-empty; a job with no readings appends
nothing. -/
def group_health_scores (readings : List SensorReading) (ids : List String) : List ℚ :=
  ids.filterMap (fun jid =>
    if (jobReadings readings jid).isEmpty then none
    else some (calculate_health_score (jobReadings readings jid)))

/-- `avg_health_score = np.mean(health_scores) if health_scores else 0`
(source line 584). -/
def avg_health_score (readings : List SensorReading) (ids : List String) : ℚ :=
  if (group_health_scores readings ids).isEmpty then 0
  else mean (group_health_scores readings ids)

/-- The sensor documents a `find({"JobID": {"$in": ids}})` query returns
(a document without a `JobID` field never matches a list of strings). -/
def readingsForIds (readings : List SensorReading) (ids : List String) : List SensorReading :=
  readings.filter (fun r => match r.JobID with
    | some jid => ids.contains jid
    | none => false)

/-- One row of the `get_all_lathes` response, without the constant
`lathe_id`/`name` fields, which carry no logic. -/
structure LatheSummary where
  health_score : ℚ
  uptime : ℚ
  status : String
  failure_count : ℕ
deriving DecidableEq, Repr

/-- The per-lathe body of `get_all_lathes` (source lines 212-264) for one
machine: the booleans are the two `collection_exists` results, `sensor_data`
the sensory batch the `find` returns, `jobs` the machine's job collection,
`f` the damping factor drawn inside `calculate_uptime`. -/
def lathe_summary (sensoryExists jobExists : Bool) (sensor_data : List SensorReading)
    (jobs : List JobRecord) (f : ℚ) : LatheSummary :=
  if !(sensoryExists && jobExists) then ⟨0, 0, "Offline", 0⟩
  else if sensor_data.isEmpty then ⟨0, 0, "No Data", 0⟩
  else
    ⟨round1 (calculate_health_score sensor_data),
     round1 (calculate_uptime (some jobs) f),
     get_lathe_status (calculate_health_score sensor_data),
     failure_count jobs⟩

/-- `get_lathe_product_analysis` (source lines 518-614), producing the
`product_types` distribution and the `product_quality` table (material,
failure_rate, avg_health_score); a raised `HTTPException` is an
`Except.error`.  The loop body skips (`continue`) a material whose `$in`
sensor query comes back empty, so such a material appears in the
distribution but not in the quality table.  The `params_by_type` table the
endpoint also returns is a plain per-field pool mean over the same `sdata`
batches; none of the properties below concern it and it is not modelled. -/
def get_lathe_product_analysis (jobExists sensoryExists : Bool)
    (allJobs : List JobRecord) (readings : List SensorReading) :
    Except String (List (String × ℕ) × List (String × ℚ × ℚ)) :=
  if !jobExists then Except.error "404 Lathe not found"
  else if (completedJobs allJobs).isEmpty then Except.error "404 No completed jobs found"
  else
    let jobs := completedJobs allJobs
    let types := product_types jobs
    let quality := types.filterMap (fun p =>
      let ids := material_job_ids jobs p.1
      let sdata := if sensoryExists then readingsForIds readings ids else []
      if sdata.isEmpty then none
      else some (p.1, failure_rate allJobs ids,
        round1 (avg_health_score (if sensoryExists then readings else []) ids)))
    Except.ok (types, quality)

/-- The per-job scoring of the spec (§4.5 step 3), as a filter followed by a
map: score every job of the set that has matching readings, drop the rest. -/
def specGroupScores (readings : List SensorReading) (ids : List String) : List ℚ :=
  (ids.filter (fun jid => !(jobReadings readings jid).isEmpty)).map
    (fun jid => calculate_health_score (jobReadings readings jid))

/-- The partition cell of material `m` in the sense of claim C7: the jobs
whose `materialKey` is `m` (an unlabeled job falls in the cell "Unknown"). -/
def groupedJobs (jobs : List JobRecord) (m : String) : List JobRecord :=
  jobs.filter (fun j => materialKey j == m)

/-- The failure rate as claim C9 words it, over the partition cell of `m`. -/
def claimed_failure_rate (jobs : List JobRecord) (m : String) : ℚ :=
  if 0 < (groupedJobs jobs m).length then
    round1 ((((groupedJobs jobs m).filter (fun j => wearGT j 80)).length : ℚ)
      / (groupedJobs jobs m).length * 100)
  else 0

/-- The completed jobs whose `Material` field is literally `m` (the job set
the code's `material_jobs` selection actually uses). -/
def labeledGroup (jobs : List JobRecord) (m : String) : List JobRecord :=
  jobs.filter (fun j => j.Material == some m)

/-- The failure rate per the amended claim C9: computed over the completed
jobs whose `Material` field equals the group key. -/
def amended_failure_rate (allJobs : List JobRecord) (m : String) : ℚ :=
  if 0 < (labeledGroup (completedJobs allJobs) m).length then
    round1 ((((labeledGroup (completedJobs allJobs) m).filter
        (fun j => wearGT j 80)).length : ℚ)
      / (labeledGroup (completedJobs allJobs) m).length * 100)
  else 0

lemma bumpCount_snd_sum (l : List (String × ℕ)) (k : String) :
    ((bumpCount l k).map Prod.snd).sum = ((l.map Prod.snd).sum) + 1 := by
  induction l with
  | nil => simp [bumpCount]
  | cons p t ih =>
    obtain ⟨k', v⟩ := p
    by_cases h : k' = k
    · simp [bumpCount, h]
      omega
    · simp [bumpCount, h, ih]
      omega

lemma bumpCount_fst_keys (l : List (String × ℕ)) (k : String) :
    (bumpCount l k).map Prod.fst =
      if k ∈ l.map Prod.fst then l.map Prod.fst else l.map Prod.fst ++ [k] := by
  induction l with
  | nil => simp [bumpCount]
  | cons p t ih =>
    obtain ⟨k', v⟩ := p
    by_cases h : k' = k
    · simp [bumpCount, h]
    · by_cases hm : k ∈ t.map Prod.fst
      · simp [bumpCount, h, ih, hm, Ne.symm h]
      · simp [bumpCount, h, ih, hm, Ne.symm h]

lemma bumpCount_lookup (l : List (String × ℕ)) (k m : String) :
    ((bumpCount l k).lookup m).getD 0 =
      (if m = k then 1 else 0) + ((l.lookup m).getD 0) := by
  induction l with
  | nil =>
    by_cases h : m = k
    · have hb : (m == k) = true := beq_iff_eq.mpr h
      simp [bumpCount, List.lookup, hb, h]
    · have hb : (m == k) = false := beq_eq_false_iff_ne.mpr h
      simp [bumpCount, List.lookup, hb, h]
  | cons p t ih =>
    obtain ⟨k', v⟩ := p
    by_cases h : k' = k
    · subst h
      by_cases hm : m = k'
      · have hb : (m == k') = true := beq_iff_eq.mpr hm
        simp [bumpCount, List.lookup, hb, hm]
        omega
      · have hb : (m == k') = false := beq_eq_false_iff_ne.mpr hm
        simp [bumpCount, List.lookup, hb, hm]
    · by_cases hm : m = k'
      · have hb : (m == k') = true := beq_iff_eq.mpr hm
        have hmk : ¬ m = k := fun hc => h (hm.symm.trans hc)
        simp [bumpCount, List.lookup, h, hb, hmk]
      · have hb : (m == k') = false := beq_eq_false_iff_ne.mpr hm
        simp [bumpCount, List.lookup, h, hb, ih]

lemma product_types_fold_sum (jobs : List JobRecord) :
    ∀ acc : List (String × ℕ),
      (((jobs.foldl (fun a j => bumpCount a (materialKey j)) acc).map Prod.snd).sum)
        = ((acc.map Prod.snd).sum) + jobs.length := by
  induction jobs with
  | nil => intro acc; simp
  | cons j t ih =>
    intro acc
    simp only [List.foldl_cons, List.length_cons, ih, bumpCount_snd_sum]
    omega

lemma product_types_fold_keys_nodup (jobs : List JobRecord) :
    ∀ acc : List (String × ℕ), (acc.map Prod.fst).Nodup →
      ((jobs.foldl (fun a j => bumpCount a (materialKey j)) acc).map Prod.fst).Nodup := by
  induction jobs with
  | nil => intro acc h; simpa using h
  | cons j t ih =>
    intro acc h
    refine ih _ ?_
    rw [bumpCount_fst_keys]
    by_cases hm : materialKey j ∈ acc.map Prod.fst
    · simpa [hm] using h
    · simp [hm, List.nodup_append, h]

lemma product_types_fold_lookup (jobs : List JobRecord) :
    ∀ (acc : List (String × ℕ)) (m : String),
      (((jobs.foldl (fun a j => bumpCount a (materialKey j)) acc).lookup m).getD 0)
        = ((acc.lookup m).getD 0)
          + (jobs.filter (fun j => materialKey j == m)).length := by
  induction jobs with
  | nil => intro acc m; simp
  | cons j t ih =>
    intro acc m
    simp only [List.foldl_cons, ih, bumpCount_lookup, List.filter_cons]
    by_cases h : materialKey j = m
    · simp [h]
      omega
    · simp [h, Ne.symm h]

lemma mem_bumpCount_self (l : List (String × ℕ)) (k : String) :
    k ∈ (bumpCount l k).map Prod.fst := by
  rw [bumpCount_fst_keys]
  by_cases hm : k ∈ l.map Prod.fst
  · rw [if_pos hm]; exact hm
  · rw [if_neg hm]; simp

lemma product_types_fold_keys_mono (jobs : List JobRecord) :
    ∀ (acc : List (String × ℕ)) (x : String), x ∈ acc.map Prod.fst →
      x ∈ (jobs.foldl (fun a j => bumpCount a (materialKey j)) acc).map Prod.fst := by
  induction jobs with
  | nil => intro acc x h; simpa using h
  | cons j t ih =>
    intro acc x h
    refine ih _ x ?_
    rw [bumpCount_fst_keys]
    by_cases hm : materialKey j ∈ acc.map Prod.fst
    · rw [if_pos hm]; exact h
    · rw [if_neg hm]; exact List.mem_append_left _ h

lemma product_types_fold_keys_mem (jobs : List JobRecord) :
    ∀ (acc : List (String × ℕ)) (j : JobRecord), j ∈ jobs →
      materialKey j ∈
        (jobs.foldl (fun a x => bumpCount a (materialKey x)) acc).map Prod.fst := by
  induction jobs with
  | nil => intro acc j h; simp at h
  | cons j0 t ih =>
    intro acc j h
    rcases List.mem_cons.mp h with h0 | hmem
    · subst h0
      exact product_types_fold_keys_mono t _ _ (mem_bumpCount_self acc (materialKey j))
    · exact ih _ j hmem

/-- Claim C7: `product_types` partitions the completed jobs exactly — the
group counts sum to the number of jobs, each material appears as a key at
most once, the count stored under a key is the number of jobs whose
`materialKey` is that key, every job's key occurs among the keys, a job
without a `Material` field keys to "Unknown", and materials A, A, B yield
the distribution A ↦ 2, B ↦ 1. -/
theorem product_types_partitions :
    (∀ jobs : List JobRecord, ((product_types jobs).map Prod.snd).sum = jobs.length)
    ∧ (∀ jobs : List JobRecord, ((product_types jobs).map Prod.fst).Nodup)
    ∧ (∀ (jobs : List JobRecord) (m : String),
        ((product_types jobs).lookup m).getD 0
          = (jobs.filter (fun j => materialKey j == m)).length)
    ∧ (∀ (jobs : List JobRecord) (j : JobRecord), j ∈ jobs →
        materialKey j ∈ (product_types jobs).map Prod.fst)
    ∧ (∀ j : JobRecord, j.Material = none → materialKey j = "Unknown")
    ∧ product_types
        [⟨"J1", "Completed", some "A", none, none, none⟩,
         ⟨"J2", "Completed", some "A", none, none, none⟩,
         ⟨"J3", "Completed", some "B", none, none, none⟩]
        = [("A", 2), ("B", 1)] := by
  refine ⟨fun jobs => ?_, fun jobs => ?_, fun jobs m => ?_, ?_, fun j h => ?_, by rfl⟩
  · simpa using product_types_fold_sum jobs []
  · simpa using product_types_fold_keys_nodup jobs [] (by simp)
  · simpa using product_types_fold_lookup jobs [] m
  · exact fun jobs j h => product_types_fold_keys_mem jobs [] j h
  · simp [materialKey, h]

/-- Claim C8: per material group, the average health score applies the
scorer independently to each job's own readings and averages across the
jobs: the accumulated score list is the filter-then-map of the scorer over
the job ids that have matching readings, the average is its mean (0 when it
is empty), and a job id with no matching readings contributes no term — the
average is unchanged by such a job, rather than pulled toward 0. -/
theorem avg_health_score_skips_jobs_without_readings :
    (∀ (readings : List SensorReading) (ids : List String),
      group_health_scores readings ids = specGroupScores readings ids)
    ∧ (∀ (readings : List SensorReading) (ids : List String),
      avg_health_score readings ids =
        if specGroupScores readings ids = [] then 0
        else mean (specGroupScores readings ids))
    ∧ (∀ (readings : List SensorReading) (ids : List String) (jid : String),
      jobReadings readings jid = [] →
        avg_health_score readings (jid :: ids) = avg_health_score readings ids) := by
  have h1 : ∀ (readings : List SensorReading) (ids : List String),
      group_health_scores readings ids = specGroupScores readings ids := by
    intro readings ids
    induction ids with
    | nil => rfl
    | cons jid t ih =>
      simp only [group_health_scores, specGroupScores, List.filterMap_cons,
        List.filter_cons] at ih ⊢
      by_cases h : (jobReadings readings jid).isEmpty <;>
        simp [h] at ih ⊢ <;> simp [ih]
  refine ⟨h1, fun readings ids => ?_, fun readings ids jid h => ?_⟩
  · rw [avg_health_score, h1 readings ids]
    by_cases h : specGroupScores readings ids = []
    · simp [h]
    · simp [h, List.isEmpty_iff]
  · have hsame : group_health_scores readings (jid :: ids)
        = group_health_scores readings ids := by
      simp [group_health_scores, List.filterMap_cons, h]
    rw [avg_health_score, avg_health_score, hsame]

/-- A completed job explicitly labeled with the material string "Unknown". -/
def uJob1 : JobRecord := ⟨"J1", "Completed", some "Unknown", none, none, some 50⟩

/-- A completed job with no `Material` field and tool wear 95. -/
def uJob2 : JobRecord := ⟨"J2", "Completed", none, none, none, some 95⟩

/-- A sensor document belonging to job "J1" with no tracked fields. -/
def uReading : SensorReading := ⟨none, none, none, none, none, some "J1"⟩

/-- Claim C9 counterexample: two completed jobs — `uJob1` labeled "Unknown"
with wear 50, `uJob2` unlabeled (hence in the "Unknown" group of the
distribution) with wear 95.  The group per the claim has 2 jobs, 1 of them
above wear 80, so the claimed failure_rate is 50.0; the code's
`material_jobs` selection (`job.get("Material") == material`) matches only
the literally-labeled job, and the endpoint emits failure_rate 0 for
"Unknown". -/
theorem failure_rate_claim_counterexample :
    claimed_failure_rate (completedJobs [uJob1, uJob2]) "Unknown" = 50
    ∧ failure_rate [uJob1, uJob2]
        (material_job_ids (completedJobs [uJob1, uJob2]) "Unknown") = 0
    ∧ get_lathe_product_analysis true true [uJob1, uJob2] [uReading]
        = Except.ok ([("Unknown", 2)], [("Unknown", 0, 0)])
    ∧ (50 : ℚ) ≠ 0 := by
  have hcj : completedJobs [uJob1, uJob2] = [uJob1, uJob2] := by decide
  have hg : groupedJobs [uJob1, uJob2] "Unknown" = [uJob1, uJob2] := by decide
  have hgw : [uJob1, uJob2].filter (fun j => wearGT j 80) = [uJob2] := by decide
  have hids : material_job_ids [uJob1, uJob2] "Unknown" = ["J1"] := by decide
  have hfailed : failed_jobs_count [uJob1, uJob2] ["J1"] = 0 := by decide
  have hrate : failure_rate [uJob1, uJob2] ["J1"] = 0 := by
    rw [failure_rate, if_pos (by decide), hfailed]
    norm_num [round1, roundHalfEven]
  have htypes : product_types [uJob1, uJob2] = [("Unknown", 2)] := by decide
  have hjr : jobReadings [uReading] "J1" = [uReading] := by decide
  have hscore : calculate_health_score [uReading] = 0 := by
    norm_num [calculate_health_score, trackedValues, score_temp, score_vib, score_rpm,
      score_power, score_wear, uReading, List.filterMap, PyVal.asNumeric]
  have havg : avg_health_score [uReading] ["J1"] = 0 := by
    simp [avg_health_score, group_health_scores, hjr, hscore, mean]
  have hrfi : readingsForIds [uReading] ["J1"] = [uReading] := by decide
  have hr0 : round1 0 = 0 := by norm_num [round1, roundHalfEven]
  refine ⟨?_, ?_, ?_, by norm_num⟩
  · rw [claimed_failure_rate]
    rw [hcj, hg, hgw]
    rw [if_pos (by decide)]
    norm_num [round1, roundHalfEven]
  · rw [hcj, hids]
    exact hrate
  · simp [get_lathe_product_analysis, hcj, htypes, hids, hrfi, hrate, havg, hr0]

/-- Claim C9 (amended): with pairwise-distinct `JobID`s (the data model's
uniqueness invariant), the failure rate the code computes for material `m`
equals `round1` of 100 × (jobs above wear 80) / (total jobs) over the set of
completed jobs whose `Material` field literally equals `m`, and 0 when that
set is empty.  A job without a `Material` field is counted in the "Unknown"
key of the type distribution but is excluded from this failure-rate set
(the content of the counterexample); the threshold here is 80, not the 90 of
`failure_count`. -/
theorem failure_rate_amended (allJobs : List JobRecord) (m : String)
    (hnd : (allJobs.map (fun j => j.JobID)).Nodup) :
    failure_rate allJobs (material_job_ids (completedJobs allJobs) m)
      = amended_failure_rate allJobs m := by
  have hids : material_job_ids (completedJobs allJobs) m
      = (labeledGroup (completedJobs allJobs) m).map (fun j => j.JobID) := rfl
  have hmem : ∀ j ∈ allJobs,
      (((labeledGroup (completedJobs allJobs) m).map (fun x => x.JobID)).contains j.JobID)
        = (j.Status == "Completed" && j.Material == some m) := by
    intro j hj
    by_cases hP : (j.Status == "Completed" && j.Material == some m) = true
    · rw [hP]
      rw [Bool.and_eq_true] at hP
      have hjS : j ∈ labeledGroup (completedJobs allJobs) m :=
        List.mem_filter.mpr ⟨List.mem_filter.mpr ⟨hj, hP.1⟩, hP.2⟩
      exact List.elem_eq_true_of_mem (List.mem_map_of_mem _ hjS)
    · rw [Bool.not_eq_true] at hP
      rw [hP]
      by_contra hc
      rw [Bool.not_eq_false] at hc
      obtain ⟨x, hxS, hxid⟩ := List.mem_map.mp (List.mem_of_elem_eq_true hc)
      have hx1 := List.mem_filter.mp hxS
      have hx2 := List.mem_filter.mp hx1.1
      have hxj : x = j := List.inj_on_of_nodup_map hnd hx2.1 hj hxid
      subst hxj
      simp [hx2.2, hx1.2] at hP
  have hcount : failed_jobs_count allJobs
        ((labeledGroup (completedJobs allJobs) m).map (fun j => j.JobID))
      = ((labeledGroup (completedJobs allJobs) m).filter (fun j => wearGT j 80)).length := by
    rw [failed_jobs_count]
    rw [List.filter_congr (fun j hj => by rw [hmem j hj] :
      ∀ j ∈ allJobs,
        (((labeledGroup (completedJobs allJobs) m).map
            (fun x => x.JobID)).contains j.JobID && wearGT j 80)
          = ((j.Status == "Completed" && j.Material == some m) && wearGT j 80))]
    rw [labeledGroup, completedJobs, List.filter_filter, List.filter_filter]
    congr 1
    exact List.filter_congr (fun j hj => by
      cases hs : j.Status == "Completed" <;> cases hm : j.Material == some m <;>
        cases hw : wearGT j 80 <;> simp [hs, hm, hw])
  rw [failure_rate, amended_failure_rate, hids, List.length_map, hcount]

/-- Claim C9 witness: the amended theorem applied to the concrete two-job
collection of the counterexample, whose job ids are distinct. -/
theorem failure_rate_amended_witness :
    ([uJob1, uJob2].map (fun j => j.JobID)).Nodup
    ∧ failure_rate [uJob1, uJob2]
        (material_job_ids (completedJobs [uJob1, uJob2]) "Unknown")
      = amended_failure_rate [uJob1, uJob2] "Unknown" :=
  ⟨by decide, failure_rate_amended [uJob1, uJob2] "Unknown" (by decide)⟩

/-- Claim C1 counterexample: for a machine whose two collections exist but
whose sensor fetch returns no records, the `get_all_lathes` row carries
uptime 0.0 (status "No Data"), not the claimed default of 100; and with no
completed jobs `get_lathe_product_analysis` surfaces a 404 error to the
caller instead of returning empty product groups. -/
theorem degrade_to_defaults_counterexample :
    lathe_summary true true [] [] (1/10) = ⟨0, 0, "No Data", 0⟩
    ∧ (lathe_summary true true [] [] (1/10)).uptime ≠ 100
    ∧ get_lathe_product_analysis true true [] []
        = Except.error "404 No completed jobs found" := by
  refine ⟨rfl, ?_, rfl⟩
  rw [show lathe_summary true true [] [] (1/10) = ⟨0, 0, "No Data", 0⟩ from rfl]
  norm_num

/-- Claim C1 (amended): on absent data the two scoring functions degrade to
their defaults (health 0, uptime 100) and a `get_all_lathes` row degrades to
health 0, uptime 0 and a sentinel status ("No Data" / "Offline") without
surfacing an error; `get_lathe_product_analysis`, however, does not degrade:
it surfaces a 404 error when the job collection is missing or no completed
job exists. -/
theorem degrade_to_defaults_amended :
    (∀ (jobs : List JobRecord) (f : ℚ),
      lathe_summary true true [] jobs f = ⟨0, 0, "No Data", 0⟩)
    ∧ (∀ (je : Bool) (sdata : List SensorReading) (jobs : List JobRecord) (f : ℚ),
      lathe_summary false je sdata jobs f = ⟨0, 0, "Offline", 0⟩)
    ∧ (∀ (se : Bool) (sdata : List SensorReading) (jobs : List JobRecord) (f : ℚ),
      lathe_summary se false sdata jobs f = ⟨0, 0, "Offline", 0⟩)
    ∧ calculate_health_score [] = 0
    ∧ (∀ f : ℚ, calculate_uptime none f = 100)
    ∧ (∀ (f : ℚ) (jobs : List JobRecord), completedJobs jobs = [] →
        calculate_uptime (some jobs) f = 100)
    ∧ (∀ (se : Bool) (allJobs : List JobRecord) (readings : List SensorReading),
        get_lathe_product_analysis false se allJobs readings
          = Except.error "404 Lathe not found")
    ∧ (∀ (se : Bool) (allJobs : List JobRecord) (readings : List SensorReading),
        completedJobs allJobs = [] →
          get_lathe_product_analysis true se allJobs readings
            = Except.error "404 No completed jobs found") := by
  refine ⟨fun jobs f => rfl, fun je sdata jobs f => rfl,
    fun se sdata jobs f => by cases se <;> rfl, rfl, fun f => rfl,
    fun f jobs h => by simp [calculate_uptime, h],
    fun se allJobs readings => rfl,
    fun se allJobs readings h => by simp [get_lathe_product_analysis, h]⟩

/-- A reading whose temperature slot holds the Python boolean `True`. -/
def boolReadingT : SensorReading := ⟨some (.bool true), none, none, none, none, none⟩

/-- A reading whose temperature slot holds the Python boolean `False`. -/
def boolReadingF : SensorReading := ⟨some (.bool false), none, none, none, none, none⟩

/-- A reading whose temperature slot holds the number 1. -/
def numReading1 : SensorReading := ⟨some (.num 1), none, none, none, none, none⟩

/-- A reading whose temperature slot holds the number 0. -/
def numReading0 : SensorReading := ⟨some (.num 0), none, none, none, none, none⟩

/-- A reading whose temperature slot holds a string. -/
def strReading : SensorReading := ⟨some (.str "bad"), none, none, none, none, none⟩

/-- Claim C10: a boolean stored in a tracked numeric field passes the
`isinstance(..., (int, float))` check (Python's `bool` is an `int`
subclass): `True` is observed as 1 and `False` as 0, while a string is
excluded; the scorer therefore treats a `True` temperature exactly like
temperature 1 and a `False` one like temperature 0, and differently from
the excluded string reading. -/
theorem bool_values_count_as_numeric :
    PyVal.asNumeric (PyVal.bool true) = some 1
    ∧ PyVal.asNumeric (PyVal.bool false) = some 0
    ∧ (∀ s : String, PyVal.asNumeric (PyVal.str s) = none)
    ∧ trackedValues (fun r => r.Temperature) [boolReadingT] = [1]
    ∧ trackedValues (fun r => r.Temperature) [strReading] = []
    ∧ calculate_health_score [boolReadingT] = calculate_health_score [numReading1]
    ∧ calculate_health_score [boolReadingF] = calculate_health_score [numReading0]
    ∧ calculate_health_score [boolReadingT] ≠ calculate_health_score [strReading] := by
  have hT : calculate_health_score [boolReadingT] = 124/5 := by
    norm_num [calculate_health_score, trackedValues, score_temp, score_vib, score_rpm,
      score_power, score_wear, mean, PyVal.asNumeric, boolReadingT, List.filterMap]
  have h1 : calculate_health_score [numReading1] = 124/5 := by
    norm_num [calculate_health_score, trackedValues, score_temp, score_vib, score_rpm,
      score_power, score_wear, mean, PyVal.asNumeric, numReading1, List.filterMap]
  have hF : calculate_health_score [boolReadingF] = 25 := by
    norm_num [calculate_health_score, trackedValues, score_temp, score_vib, score_rpm,
      score_power, score_wear, mean, PyVal.asNumeric, boolReadingF, List.filterMap]
  have h0 : calculate_health_score [numReading0] = 25 := by
    norm_num [calculate_health_score, trackedValues, score_temp, score_vib, score_rpm,
      score_power, score_wear, mean, PyVal.asNumeric, numReading0, List.filterMap]
  have hs : calculate_health_score [strReading] = 0 := by
    norm_num [calculate_health_score, trackedValues, score_temp, score_vib, score_rpm,
      score_power, score_wear, mean, PyVal.asNumeric, strReading, List.filterMap]
  refine ⟨rfl, rfl, fun s => rfl, rfl, rfl, ?_, ?_, ?_⟩
  · rw [hT, h1]
  · rw [hF, h0]
  · rw [hT, hs]
    norm_num
